import Mathlib

/-!
Verification of the Asana MCP server query-parameter normalizer
(src/servers/asana-mcp-server): a shallow embedding of the schema layer
(schemas/base.ts, schemas/tool-schemas.ts), the search-parameter builder and
response reshaping (core/client.ts), the error classifier (utils/errors.ts),
and the set-parent tool handler case (handlers/tool-handler.ts), together with
theorems about the claims of the specification.

The TypeScript runs on JavaScript values; we model the JSON-like value space
with an inductive type `J` that also carries the JavaScript `undefined`
(constructor `J.undef`), since property access on a missing key yields
`undefined` and truthiness tests treat it as false.  Strings are Lean strings
(the source only exercises the ASCII range in the regexes, trims and case
folds that matter here, so those primitives are modelled at the ASCII level);
numbers are modelled as integers, which covers every numeric value the claims
touch.  String-level primitives (split, trim, lower-casing) are implemented on
character lists so that every definition evaluates by kernel reduction.
-/

/-- JavaScript/JSON value model: null, undefined, booleans, integers, strings,
arrays and objects (objects as association lists in insertion order, the order
`Object.entries` observes). -/
inductive J : Type where
  | null : J
  | undef : J
  | bool : Bool → J
  | num : Int → J
  | str : String → J
  | arr : List J → J
  | obj : List (String × J) → J
deriving Repr

namespace JsModel

/-- JavaScript truthiness: `undefined`, `null`, `false`, `0` and `""` are
falsy; every array and object (including empty ones) is truthy. -/
def jsTruthy : J → Bool
  | J.null => false
  | J.undef => false
  | J.bool b => b
  | J.num n => n != 0
  | J.str s => !s.toList.isEmpty
  | J.arr _ => true
  | J.obj _ => true

/-- `typeof v === "object"` : true for objects, arrays and `null`. -/
def jsTypeofObject : J → Bool
  | J.obj _ => true
  | J.arr _ => true
  | J.null => true
  | _ => false

/-- Property lookup in an object association list: first binding wins,
as in a JavaScript object (whose keys are unique). -/
def objGet (fs : List (String × J)) (k : String) : Option J :=
  (fs.find? (fun p => p.1 = k)).map Prod.snd

/-- `o[k] = v` on a JavaScript object: overwrite in place if the key exists
(keeping its position in insertion order), otherwise append. -/
def objSet (fs : List (String × J)) (k : String) (v : J) : List (String × J) :=
  if fs.any (fun p => p.1 = k) then
    fs.map (fun p => if p.1 = k then (k, v) else p)
  else
    fs ++ [(k, v)]

/-- `delete o[k]` on a JavaScript object. -/
def objDelete (fs : List (String × J)) (k : String) : List (String × J) :=
  fs.filter (fun p => p.1 ≠ k)

/-- Dynamic property access `v.k` as the source performs it on response data:
missing properties yield `undefined`; access on `null`/`undefined` throws a
TypeError, every other non-object yields `undefined`. -/
def propGet (v : J) (k : String) : Except String J :=
  match v with
  | J.obj fs => Except.ok ((objGet fs k).getD J.undef)
  | J.null => Except.error "TypeError: cannot read properties of null"
  | J.undef => Except.error "TypeError: cannot read properties of undefined"
  | _ => Except.ok J.undef

/-- String rendering of a value inside a template literal, on the values the
source actually interpolates (strings, numbers, booleans, null, undefined). -/
def jsToStr : J → String
  | J.null => "null"
  | J.undef => "undefined"
  | J.bool b => if b then "true" else "false"
  | J.num n => toString n
  | J.str s => s
  | J.arr _ => ""
  | J.obj _ => "[object Object]"

/-- ASCII whitespace recognised by the model of `String.prototype.trim`
(the source data only ever carries these). -/
def isAsciiSpace (c : Char) : Bool :=
  c = ' ' || c = '\t' || c = '\n' || c = '\r'

/-- `trim` on a character list: drop whitespace from both ends. -/
def trimAscii (cs : List Char) : List Char :=
  ((cs.dropWhile isAsciiSpace).reverse.dropWhile isAsciiSpace).reverse

/-- `str.split(sep)` on character lists, with JavaScript semantics:
splitting the empty string yields one empty piece, and separators at either
end produce empty pieces. -/
def splitOnChar (sep : Char) : List Char → List (List Char)
  | [] => [[]]
  | c :: cs =>
      match splitOnChar sep cs with
      | [] => [[]]
      | cur :: rest => if c = sep then [] :: cur :: rest else (c :: cur) :: rest

/-- ASCII model of `String.prototype.toLowerCase` (the source only compares
against the ASCII literal "true"). -/
def jsToLower (s : String) : String :=
  String.mk (s.toList.map Char.toLower)

/-- `val.toLowerCase() === "true"`, computed on character lists. -/
def jsLowerEqTrue (s : String) : Bool :=
  s.toList.map Char.toLower == "true".toList

/-- `a || b` on two optional strings, where an empty string is falsy. -/
def jsOrStr (a : Option String) (b : String) : String :=
  match a with
  | some s => if s.toList.isEmpty then b else s
  | none => b

/-- `a || b` on optional numbers, where `0` is falsy. -/
def jsOrNat (a : Option Nat) (b : Option Nat) : Option Nat :=
  match a with
  | some n => if n = 0 then b else some n
  | none => b

/-- `needle` occurs as a contiguous run inside `hay`. -/
def listContainsSeq (needle : List Char) : List Char → Bool
  | [] => needle.isEmpty
  | c :: cs => needle.isPrefixOf (c :: cs) || listContainsSeq needle cs

/-- `hay.includes(needle)` (used by the classifier for "timeout"). -/
def strIncludes (hay needle : String) : Bool :=
  needle.toList.isEmpty || listContainsSeq needle.toList hay.toList

end JsModel

open JsModel

/-! ### schemas/base.ts -/

/-- CommaListSchema transform (schemas/base.ts:37-39):
`str.split(",").map(s => s.trim()).filter(Boolean)`.  JavaScript `Boolean` on
a string keeps exactly the nonempty ones. -/
def commaListTransform (s : String) : List String :=
  ((((splitOnChar ',' s.toList).map trimAscii).filter
      (fun cs => !cs.isEmpty)).map (fun cs => String.mk cs))

/-- GidSchema (schemas/base.ts:12): regex `^\d+$`. -/
def gidCheck (s : String) : Bool :=
  !s.toList.isEmpty && s.toList.all Char.isDigit

/-- DateSchema (schemas/base.ts:18-21): regex `^\d{4}-\d{2}-\d{2}$`. -/
def dateCheck (s : String) : Bool :=
  match s.toList with
  | [y1, y2, y3, y4, '-', m1, m2, '-', d1, d2] =>
      [y1, y2, y3, y4, m1, m2, d1, d2].all Char.isDigit
  | _ => false

/-- Timezone suffix of DateTimeSchema: `(?:Z|[+-]\d{2}:\d{2})?$`. -/
def dateTimeTzCheck : List Char → Bool
  | [] => true
  | ['Z'] => true
  | ['+', a, b, ':', c, d] => [a, b, c, d].all Char.isDigit
  | ['-', a, b, ':', c, d] => [a, b, c, d].all Char.isDigit
  | _ => false

/-- Fractional-seconds suffix of DateTimeSchema: `(?:\.\d+)?` then timezone. -/
def dateTimeFracCheck : List Char → Bool
  | '.' :: rest =>
      let ds := rest.takeWhile Char.isDigit
      !ds.isEmpty && dateTimeTzCheck (rest.dropWhile Char.isDigit)
  | rest => dateTimeTzCheck rest

/-- DateTimeSchema (schemas/base.ts:27-30): regex
`^\d{4}-\d{2}-\d{2}T\d{2}:\d{2}:\d{2}(?:\.\d+)?(?:Z|[+-]\d{2}:\d{2})?$`. -/
def dateTimeCheck (s : String) : Bool :=
  match s.toList with
  | y1 :: y2 :: y3 :: y4 :: '-' :: m1 :: m2 :: '-' :: d1 :: d2 :: 'T' ::
    h1 :: h2 :: ':' :: n1 :: n2 :: ':' :: s1 :: s2 :: rest =>
      [y1, y2, y3, y4, m1, m2, d1, d2, h1, h2, n1, n2, s1, s2].all Char.isDigit
        && dateTimeFracCheck rest
  | _ => false

/-- LimitSchema (schemas/base.ts:93): `z.number().int().min(1).max(100)`.
Issues are collected, not fail-fast; the value is returned untouched (zod
min/max never clamp). The input is already integral in our model. -/
def limitParse (n : Int) : Except (List String) Int :=
  let issues :=
    (if n < 1 then ["Number must be greater than or equal to 1"] else []) ++
    (if n > 100 then ["Limit must be between 1 and 100"] else [])
  if issues.isEmpty then Except.ok n else Except.error issues

/-- BooleanOrStringSchema (schemas/base.ts:85-88): a union of `z.boolean()`
and `z.string().transform(val => val.toLowerCase() === "true")`. -/
def booleanOrStringParse : J → Except String J
  | J.bool b => Except.ok (J.bool b)
  | J.str s => Except.ok (J.bool (jsLowerEqTrue s))
  | _ => Except.error "Invalid input"

/-! ### core/client.ts : createTask -/

/-- Projects array sent by `AsanaClientWrapper.createTask`
(core/client.ts:193-198): `const projects = data.projects || []` followed by
`if (!projects.includes(projectId)) projects.push(projectId)`.  A missing
`projects` property (JavaScript `undefined`, falsy) becomes the empty array;
a supplied array, empty or not, is kept (an empty array is truthy). -/
def createTaskProjects (dataProjects : Option (List String)) (projectId : String) :
    List String :=
  let projects := dataProjects.getD []
  if projects.contains projectId then projects else projects ++ [projectId]

/-- Outbound `data` payload of `createTask` (core/client.ts:200-209), the
fields the wrapper itself fixes up. -/
structure CreateTaskOutbound where
  projects : List String
  resource_subtype : String
  deriving Repr

/-- `createTask` body construction (core/client.ts:200-209):
`resource_subtype: data.resource_subtype || "default_task"` and the adjusted
projects array. -/
def buildCreateTaskData (dataProjects : Option (List String))
    (dataResourceSubtype : Option String) (projectId : String) : CreateTaskOutbound :=
  { projects := createTaskProjects dataProjects projectId
    resource_subtype := jsOrStr dataResourceSubtype "default_task" }

/-! ### Theorems for the base-schema claims -/

/-- C6: the comma-list transform splits on commas, trims each element, drops
the empty ones and keeps the rest in order; in particular
`"1, 2 ,3,,4"` normalizes to `["1","2","3","4"]`, and in general the output
is a subsequence (order preserved) of the trimmed split, with every element
nonempty. -/
theorem commaList_splits_trims_drops_preserves_order :
    commaListTransform "1, 2 ,3,,4" = ["1", "2", "3", "4"] ∧
    (∀ s : String,
      (commaListTransform s).Sublist
        (((splitOnChar ',' s.toList).map trimAscii).map (fun cs => String.mk cs))) ∧
    (∀ s : String, ∀ x ∈ commaListTransform s, x ≠ "") := by
  refine ⟨by decide, ?_, ?_⟩
  · intro s
    exact List.Sublist.map _ (List.filter_sublist _)
  · intro s x hx
    unfold commaListTransform at hx
    rcases List.mem_map.mp hx with ⟨cs, hcs, hmk⟩
    have hne := List.of_mem_filter hcs
    intro hempty
    rw [hempty] at hmk
    have : cs = [] := by
      have := congrArg String.toList hmk
      simpa using this
    rw [this] at hne
    simp at hne

/-- C5 counterexample: the comma-list normalization does not remove
duplicates — `"1,1"` normalizes to `["1","1"]`, which contains `"1"` twice,
so the resulting ordered sequence is not duplicate-free. -/
theorem commaList_counterexample_duplicates_kept :
    commaListTransform "1,1" = ["1", "1"] ∧
    ¬ (commaListTransform "1,1").Nodup := by
  have he : commaListTransform "1,1" = ["1", "1"] := by decide
  refine ⟨he, ?_⟩
  intro h
  rw [he] at h
  simp at h

/-- C5 amended: the comma-list normalization removes empty entries (every
element of the output is nonempty) but preserves duplicate entries in order;
`"1,1"` yields `["1","1"]`. -/
theorem commaList_amended_no_dedup :
    (∀ s : String, ∀ x ∈ commaListTransform s, x ≠ "") ∧
    commaListTransform "1,1" = ["1", "1"] :=
  ⟨commaList_splits_trims_drops_preserves_order.2.2, by decide⟩

/-- C5 amended, witness at a concrete input. -/
theorem commaList_amended_no_dedup_witness :
    ("1" ∈ commaListTransform "1,1") ∧ "1" ≠ "" :=
  ⟨by rw [commaList_amended_no_dedup.2]; exact List.mem_cons_self _ _,
   commaList_amended_no_dedup.1 "1,1" "1"
     (by rw [commaList_amended_no_dedup.2]; exact List.mem_cons_self _ _)⟩

/-- C8: the pagination limit schema enforces the hard range [1,100]: 0 and
101 are rejected (as is every value outside the range — the parse never
returns any value, clamped or otherwise), while 1 and 100 are accepted
unchanged. -/
theorem limit_hard_range :
    (∃ e, limitParse 0 = Except.error e) ∧
    (∃ e, limitParse 101 = Except.error e) ∧
    limitParse 1 = Except.ok 1 ∧
    limitParse 100 = Except.ok 100 ∧
    (∀ n : Int, (n < 1 ∨ 100 < n) → ∀ m, limitParse n ≠ Except.ok m) ∧
    (∀ n : Int, 1 ≤ n → n ≤ 100 → limitParse n = Except.ok n) := by
  refine ⟨⟨_, rfl⟩, ⟨_, rfl⟩, rfl, rfl, ?_, ?_⟩
  · intro n hn m h
    unfold limitParse at h
    rcases hn with h' | h'
    · simp [h'] at h
    · simp [show (100 : Int) < n from h', show ¬ n < 1 by omega] at h
  · intro n h1 h2
    unfold limitParse
    simp [show ¬ n < 1 by omega, show ¬ n > 100 by omega]

/-- C8 witness: instantiating the universal parts at 101 and 50. -/
theorem limit_hard_range_witness :
    limitParse 101 ≠ Except.ok 101 ∧ limitParse 50 = Except.ok 50 :=
  ⟨limit_hard_range.2.2.2.2.1 101 (Or.inr (by norm_num)) 101,
   limit_hard_range.2.2.2.2.2 50 (by norm_num) (by norm_num)⟩

/-- C10: the boolean-or-string schema accepts every string: parsing a string
always succeeds, yielding `true` exactly when the lowercased string is
`"true"`; in particular `"yes"`, `"1"`, `"FALSE"` and `""` all parse to
`false`, and `"TRUE"` parses to `true`. -/
theorem booleanOrString_accepts_all_strings :
    (∀ s : String, ∃ b : Bool,
      booleanOrStringParse (J.str s) = Except.ok (J.bool b) ∧
      (b = true ↔ jsToLower s = "true")) ∧
    booleanOrStringParse (J.str "yes") = Except.ok (J.bool false) ∧
    booleanOrStringParse (J.str "1") = Except.ok (J.bool false) ∧
    booleanOrStringParse (J.str "FALSE") = Except.ok (J.bool false) ∧
    booleanOrStringParse (J.str "") = Except.ok (J.bool false) ∧
    booleanOrStringParse (J.str "TRUE") = Except.ok (J.bool true) := by
  refine ⟨?_, rfl, rfl, rfl, rfl, rfl⟩
  intro s
  refine ⟨jsLowerEqTrue s, rfl, ?_⟩
  unfold jsLowerEqTrue jsToLower
  constructor
  · intro h
    have heq : s.toList.map Char.toLower = "true".toList := eq_of_beq h
    rw [heq]
    rfl
  · intro h
    have heq : s.toList.map Char.toLower = "true".toList := by
      have := congrArg String.toList h
      simpa using this
    exact beq_iff_eq.mpr heq

/-- C9: the outbound createTask request always carries the target project:
the projects array sent to the vendor contains `projectId`, whether or not the
caller supplied a `projects` array; and a supplied array that already contains
`projectId` is forwarded exactly as given, with no duplicate appended. -/
theorem createTask_projects_contains_projectId :
    (∀ (dp : Option (List String)) (pid : String),
      pid ∈ (buildCreateTaskData dp none pid).projects) ∧
    (∀ (l : List String) (pid : String) (rs : Option String),
      pid ∈ l → (buildCreateTaskData (some l) rs pid).projects = l) := by
  constructor
  · intro dp pid
    unfold buildCreateTaskData createTaskProjects
    by_cases h : pid ∈ dp.getD []
    · simp [h]
    · simp [h]
  · intro l pid rs hmem
    unfold buildCreateTaskData createTaskProjects
    simp [hmem]

/-- C9 witness: concrete calls, one with the project already present and one
without. -/
theorem createTask_projects_contains_projectId_witness :
    "7" ∈ (buildCreateTaskData (some ["7", "8"]) none "7").projects ∧
    (buildCreateTaskData (some ["7", "8"]) none "7").projects = ["7", "8"] :=
  ⟨createTask_projects_contains_projectId.1 (some ["7", "8"]) "7",
   createTask_projects_contains_projectId.2 ["7", "8"] "7" none (by decide)⟩

/-! ### core/client.ts : searchTasks parameter building (custom-field expansion) -/

/-- `Object.entries(v)` for the shapes `typeof v === "object" && v !== null`
covers: an object yields its bindings in insertion order, an array yields
index-keyed bindings. -/
def objEntries : J → List (String × J)
  | J.obj m => m
  | J.arr xs => xs.enum.map (fun p => (toString p.1, p.2))
  | _ => []

/-- One iteration of the custom-field expansion loop (core/client.ts:78-88):
for a pair `(key, value)` of the custom_fields object, a nested object (or
array) emits one `custom_fields.<key>.<operation>` assignment per entry, any
other value (null included, since `value !== null` fails) emits a single
`custom_fields.<key>.value` assignment. -/
def cfExpandStep (acc : List (String × J)) (key : String) (value : J) :
    List (String × J) :=
  match value with
  | J.obj ops =>
      ops.foldl
        (fun a p => objSet a ("custom_fields." ++ key ++ "." ++ p.1) p.2) acc
  | J.arr xs =>
      (xs.enum.map (fun p => (toString p.1, p.2))).foldl
        (fun a p => objSet a ("custom_fields." ++ key ++ "." ++ p.1) p.2) acc
  | v => objSet acc ("custom_fields." ++ key ++ ".value") v

/-- Parameter construction of `AsanaClientWrapper.searchTasks`
(core/client.ts:59-90): spread-copy of the search options, expansion of a
truthy object-typed `custom_fields` value into dot-notation assignments, then
`delete searchParams.custom_fields`.  The JSON-string re-parsing branch
(lines 65-74) applies only to string-valued `custom_fields` and is exercised
by none of the claims, which quantify over custom-field maps. -/
def buildSearchParams (searchOpts : List (String × J)) : List (String × J) :=
  match objGet searchOpts "custom_fields" with
  | some v =>
      if jsTruthy v && jsTypeofObject v then
        objDelete
          ((objEntries v).foldl (fun a p => cfExpandStep a p.1 p.2) searchOpts)
          "custom_fields"
      else searchOpts
  | none => searchOpts

/-- Specification-side description of what one `(fieldId, spec)` pair emits:
exactly `custom_fields.<fieldId>.value` for a scalar, exactly one
`custom_fields.<fieldId>.<operator>` key per operator/value pair for an
object. -/
def emitCustomField (fieldId : String) (spec : J) : List (String × J) :=
  match spec with
  | J.obj ops =>
      ops.map (fun p => ("custom_fields." ++ fieldId ++ "." ++ p.1, p.2))
  | J.arr xs =>
      xs.enum.map (fun p => ("custom_fields." ++ fieldId ++ "." ++ toString p.1, p.2))
  | v => [("custom_fields." ++ fieldId ++ ".value", v)]

/-- All key/value pairs emitted by a custom_fields map. -/
def expandCustomFields (m : List (String × J)) : List (String × J) :=
  m.flatMap (fun p => emitCustomField p.1 p.2)

/-- Setting a fresh key appends it. -/
theorem objSet_fresh (fs : List (String × J)) (k : String) (v : J)
    (h : k ∉ fs.map Prod.fst) : objSet fs k v = fs ++ [(k, v)] := by
  unfold objSet
  rw [if_neg]
  intro hc
  rcases List.any_eq_true.mp hc with ⟨p, hp, he⟩
  exact h (List.mem_map.mpr ⟨p, hp, of_decide_eq_true he⟩)

/-- Folding `objSet` over pairwise-fresh assignments appends them in order. -/
theorem foldl_objSet_fresh (qs : List (String × J)) :
    ∀ acc : List (String × J),
      (qs.map Prod.fst).Nodup →
      (∀ k ∈ qs.map Prod.fst, k ∉ acc.map Prod.fst) →
      qs.foldl (fun a q => objSet a q.1 q.2) acc = acc ++ qs := by
  induction qs with
  | nil => intro acc _ _; simp
  | cons q rest ih =>
      intro acc hnd hfresh
      rw [List.map_cons] at hnd
      have hnd' := List.nodup_cons.mp hnd
      have hq : q.1 ∉ acc.map Prod.fst := hfresh q.1 (by simp)
      have hstep : objSet acc q.1 q.2 = acc ++ [q] := by
        have := objSet_fresh acc q.1 q.2 hq
        simpa using this
      rw [List.foldl_cons, hstep, ih (acc ++ [q]) hnd'.2]
      · simp
      · intro k hk hmem
        rw [List.map_append] at hmem
        rcases List.mem_append.mp hmem with h | h
        · exact hfresh k (by simp [hk]) h
        · simp only [List.map_cons, List.map_nil, List.mem_singleton] at h
          exact hnd'.1 (h ▸ hk)

/-- One expansion-loop iteration is the fold of its emitted assignments. -/
theorem cfExpandStep_eq_foldl (acc : List (String × J)) (key : String) (value : J) :
    cfExpandStep acc key value =
      (emitCustomField key value).foldl (fun a q => objSet a q.1 q.2) acc := by
  cases value <;> simp [cfExpandStep, emitCustomField, List.foldl_map]

/-- The whole expansion loop is the fold of all emitted assignments. -/
theorem cfExpand_foldl_eq (m : List (String × J)) :
    ∀ acc : List (String × J),
      m.foldl (fun a p => cfExpandStep a p.1 p.2) acc =
        (expandCustomFields m).foldl (fun a q => objSet a q.1 q.2) acc := by
  induction m with
  | nil => intro acc; simp [expandCustomFields]
  | cons p rest ih =>
      intro acc
      rw [List.foldl_cons, cfExpandStep_eq_foldl, ih]
      have hexp : expandCustomFields (p :: rest) =
          emitCustomField p.1 p.2 ++ expandCustomFields rest := by
        simp [expandCustomFields]
      rw [hexp, List.foldl_append]

/-- Every emitted key extends the literal `custom_fields.` and so is never
the bare key `custom_fields`. -/
theorem emit_key_ne_custom_fields (m : List (String × J)) :
    ∀ q ∈ expandCustomFields m, q.1 ≠ "custom_fields" := by
  intro q hq
  rcases List.mem_flatMap.mp hq with ⟨p, _, hemit⟩
  have hform : ∃ rest : String, q.1 = "custom_fields." ++ rest := by
    unfold emitCustomField at hemit
    rcases p with ⟨fid, spec⟩
    cases spec with
    | obj ops =>
        rcases List.mem_map.mp hemit with ⟨r, _, hr⟩
        exact ⟨fid ++ "." ++ r.1, by rw [← hr]; simp [String.append_assoc]⟩
    | arr xs =>
        rcases List.mem_map.mp hemit with ⟨r, _, hr⟩
        exact ⟨fid ++ "." ++ toString r.1, by rw [← hr]; simp [String.append_assoc]⟩
    | null =>
        exact ⟨fid ++ ".value",
          by rw [List.mem_singleton.mp hemit]; simp [String.append_assoc]⟩
    | undef =>
        exact ⟨fid ++ ".value",
          by rw [List.mem_singleton.mp hemit]; simp [String.append_assoc]⟩
    | bool b =>
        exact ⟨fid ++ ".value",
          by rw [List.mem_singleton.mp hemit]; simp [String.append_assoc]⟩
    | num n =>
        exact ⟨fid ++ ".value",
          by rw [List.mem_singleton.mp hemit]; simp [String.append_assoc]⟩
    | str s =>
        exact ⟨fid ++ ".value",
          by rw [List.mem_singleton.mp hemit]; simp [String.append_assoc]⟩
  rcases hform with ⟨rest, hrest⟩
  intro hcontra
  have hlen := congrArg String.length (hrest ▸ hcontra)
  rw [String.length_append] at hlen
  have h14 : ("custom_fields." : String).length = 14 := by decide
  have h13 : ("custom_fields" : String).length = 13 := by decide
  omega

/-- C1: custom-field expansion in searchTasks.  For a search-option map whose
`custom_fields` value is an object of `(fieldId, spec)` pairs (with the
emitted dot-notation keys fresh and pairwise distinct, as they are for the
validated digit-string field ids and enum operators), the outbound parameter
map is exactly the original map minus `custom_fields`, followed in order by:
one `custom_fields.<fieldId>.value` binding per scalar spec and one
`custom_fields.<fieldId>.<operator>` binding per operator/value pair of each
object spec — and the outbound map has no `custom_fields` key. -/
theorem searchTasks_custom_fields_expansion
    (opts m : List (String × J))
    (hcf : objGet opts "custom_fields" = some (J.obj m))
    (hfresh : ∀ q ∈ expandCustomFields m, q.1 ∉ opts.map Prod.fst)
    (hnodup : ((expandCustomFields m).map Prod.fst).Nodup) :
    buildSearchParams opts = objDelete opts "custom_fields" ++ expandCustomFields m ∧
    "custom_fields" ∉ (buildSearchParams opts).map Prod.fst := by
  have hbuild : buildSearchParams opts =
      objDelete opts "custom_fields" ++ expandCustomFields m := by
    have hstep : buildSearchParams opts =
        objDelete (m.foldl (fun a p => cfExpandStep a p.1 p.2) opts)
          "custom_fields" := by
      simp [buildSearchParams, hcf, jsTruthy, jsTypeofObject, objEntries]
    rw [hstep, cfExpand_foldl_eq,
        foldl_objSet_fresh _ _ hnodup (fun k hk => by
          rcases List.mem_map.mp hk with ⟨q, hq, hqe⟩
          exact hqe ▸ hfresh q hq)]
    unfold objDelete
    rw [List.filter_append]
    have hkeep : List.filter (fun p => decide (p.1 ≠ "custom_fields"))
        (expandCustomFields m) = expandCustomFields m :=
      List.filter_eq_self.mpr (fun q hq =>
        decide_eq_true (emit_key_ne_custom_fields m q hq))
    rw [hkeep]
  refine ⟨hbuild, ?_⟩
  rw [hbuild]
  intro hmem
  rw [List.map_append, List.mem_append] at hmem
  rcases hmem with hmem | hmem
  · rcases List.mem_map.mp hmem with ⟨p, hp, hpe⟩
    have := List.of_mem_filter hp
    rw [hpe] at this
    simp at this
  · rcases List.mem_map.mp hmem with ⟨q, hq, hqe⟩
    exact emit_key_ne_custom_fields m q hq hqe

/-- Concrete search options for the C1 witness: a text filter plus a
custom_fields map with one scalar spec and one operator spec. -/
def cfWitnessOpts : List (String × J) :=
  [("text", J.str "hi"),
   ("custom_fields",
     J.obj [("111", J.str "high"), ("222", J.obj [("contains", J.str "eng")])])]

/-- The custom_fields map inside `cfWitnessOpts`. -/
def cfWitnessMap : List (String × J) :=
  [("111", J.str "high"), ("222", J.obj [("contains", J.str "eng")])]

/-- C1 witness: the expansion theorem applied to the concrete options. -/
theorem searchTasks_custom_fields_expansion_witness :
    buildSearchParams cfWitnessOpts =
      objDelete cfWitnessOpts "custom_fields" ++ expandCustomFields cfWitnessMap ∧
    "custom_fields" ∉ (buildSearchParams cfWitnessOpts).map Prod.fst :=
  searchTasks_custom_fields_expansion cfWitnessOpts cfWitnessMap rfl
    (by decide) (by decide)

/-! ### core/client.ts : searchTasks response reshaping -/

/-- `v === "enum"` : strict equality of a JavaScript value with a string
literal. -/
def jStrictEqStr (v : J) (s : String) : Bool :=
  match v with
  | J.str t => t == s
  | _ => false

/-- One step of the `custom_fields.reduce` callback (core/client.ts:100-111):
compute the key `"<name> (<gid>)"`, take `display_value`, augment it with the
enum option gid when `field.type === "enum"` and `enum_value` is truthy, and
assign into the accumulator object. -/
def cfReduceStep (acc : List (String × J)) (field : J) :
    Except String (List (String × J)) := do
  let name ← propGet field "name"
  let gid ← propGet field "gid"
  let key := jsToStr name ++ " (" ++ jsToStr gid ++ ")"
  let dv ← propGet field "display_value"
  let ty ← propGet field "type"
  let ev ← propGet field "enum_value"
  let value ←
    if jStrictEqStr ty "enum" && jsTruthy ev then do
      let eg ← propGet ev "gid"
      pure (J.str (jsToStr dv ++ " (" ++ jsToStr eg ++ ")"))
    else
      pure dv
  pure (objSet acc key value)

/-- The reduce over the custom_fields array, accumulator threaded left to
right starting from `{}`. -/
def cfReduce : List J → List (String × J) → Except String (List (String × J))
  | [], acc => Except.ok acc
  | f :: rest, acc =>
      match cfReduceStep acc f with
      | Except.ok acc2 => cfReduce rest acc2
      | Except.error e => Except.error e

/-- Response reshaping of `searchTasks` (core/client.ts:95-113) applied to one
returned item: `if (!task.custom_fields) return task;`, else
`{...task, custom_fields: task.custom_fields.reduce(..., {})}`.  A truthy
non-array `custom_fields` would throw in JavaScript (`reduce` is not a
function), modelled as an error, as is property access on a null/undefined
item. -/
def transformTask (task : J) : Except String J :=
  match task with
  | J.null => Except.error "TypeError: cannot read properties of null"
  | J.undef => Except.error "TypeError: cannot read properties of undefined"
  | J.obj fs =>
      let cf := (objGet fs "custom_fields").getD J.undef
      if jsTruthy cf then
        match cf with
        | J.arr fields =>
            match cfReduce fields [] with
            | Except.ok m =>
                Except.ok (J.obj (objSet fs "custom_fields" (J.obj m)))
            | Except.error e => Except.error e
        | _ => Except.error "TypeError: reduce is not a function"
      else Except.ok task
  | t => Except.ok t

/-- C2 counterexample: the reshaping transform is not the identity on an item
whose `custom_fields` is the empty array — the empty array is truthy, so the
reduce runs and replaces it by an empty object. -/
theorem transformTask_counterexample_empty_array :
    transformTask (J.obj [("gid", J.str "1"), ("custom_fields", J.arr [])]) =
      Except.ok (J.obj [("gid", J.str "1"), ("custom_fields", J.obj [])]) ∧
    transformTask (J.obj [("gid", J.str "1"), ("custom_fields", J.arr [])]) ≠
      Except.ok (J.obj [("gid", J.str "1"), ("custom_fields", J.arr [])]) := by
  refine ⟨rfl, ?_⟩
  intro h
  have h1 : Except.ok (ε := String)
      (J.obj [("gid", J.str "1"), ("custom_fields", J.obj [])]) =
      Except.ok (J.obj [("gid", J.str "1"), ("custom_fields", J.arr [])]) := h
  injection h1 with h2
  injection h2 with h3
  injection h3 with h4 h5
  injection h5 with h6 h7
  injection h6 with h8 h9
  exact J.noConfusion h9

/-- C2 amended: the reshaping transform leaves an item with no
`custom_fields` property unchanged, but an item whose `custom_fields` is an
empty array is NOT returned unchanged: the empty array is replaced (in place,
all other fields byte-for-byte identical) by an empty object. -/
theorem transformTask_amended (fs : List (String × J)) :
    (objGet fs "custom_fields" = none →
      transformTask (J.obj fs) = Except.ok (J.obj fs)) ∧
    (objGet fs "custom_fields" = some (J.arr []) →
      transformTask (J.obj fs) =
        Except.ok (J.obj (objSet fs "custom_fields" (J.obj [])))) := by
  constructor
  · intro h
    simp [transformTask, h, jsTruthy]
  · intro h
    simp [transformTask, h, jsTruthy, cfReduce]

/-- C2 amended, witness at concrete items: one without a `custom_fields`
property, one with an empty `custom_fields` array. -/
theorem transformTask_amended_witness :
    transformTask (J.obj [("gid", J.str "9")]) =
      Except.ok (J.obj [("gid", J.str "9")]) ∧
    transformTask (J.obj [("gid", J.str "9"), ("custom_fields", J.arr [])]) =
      Except.ok (J.obj
        (objSet [("gid", J.str "9"), ("custom_fields", J.arr [])]
          "custom_fields" (J.obj []))) :=
  ⟨(transformTask_amended [("gid", J.str "9")]).1 rfl,
   (transformTask_amended [("gid", J.str "9"), ("custom_fields", J.arr [])]).2 rfl⟩

/-! ### utils/errors.ts : enhanceAsanaError -/

/-- One element of a vendor error array (`error.value.errors[i]` or
`error.response.data.errors[i]`): the classifier reads its `message` and
`phrase` properties, either of which may be absent (undefined). -/
structure VendorErr where
  message : Option String
  phrase : Option String

/-- The `error.response` object when present: `status` (0 standing for a
falsy/absent status), `statusText`, and `data.errors` when `data` is truthy
and carries a nonempty-checkable array (`none` covers every non-matching
shape). -/
structure RespInfo where
  status : Nat
  statusText : Option String
  data_errors : Option (List VendorErr)

/-- The object-shaped error input of `enhanceAsanaError`
(utils/errors.ts:63): `value_errors` is `some l` exactly when `error.value`
is truthy and `error.value.errors` is a truthy array `l`; the remaining
fields are direct properties, `none` standing for absent/undefined. -/
structure AsanaErr where
  value_errors : Option (List VendorErr)
  response : Option RespInfo
  code : Option String
  message : Option String
  status : Option Nat
  statusCode : Option Nat

/-- The classifier output (interface EnhancedAsanaError,
utils/errors.ts:52-58), minus the `originalError` field, which is always the
input itself. `message = none` models a JavaScript undefined message. -/
structure EnhancedAsanaError where
  message : Option String
  status : Option Nat
  code : Option String
  context : Option String

/-- `context ? context + ": " + m : m` for a string message `m` (an empty
context string is falsy and leaves the message bare). -/
def ctxMsgS (ctx : Option String) (m : String) : String :=
  match ctx with
  | some c => if c.toList.isEmpty then m else c ++ ": " ++ m
  | none => m

/-- `context ? \x60${context}: ${m}\x60 : m` where `m` may be undefined: the
template interpolates undefined as the text "undefined", the bare branch
returns it as is. -/
def ctxMsgOpt (ctx : Option String) (m : Option String) : Option String :=
  match ctx with
  | some c => if c.toList.isEmpty then m else some (c ++ ": " ++ m.getD "undefined")
  | none => m

/-- Fixed-message classification result (the network/timeout/status-table
branches of utils/errors.ts). -/
def fixedResult (ctx : Option String) (m : String) (st : Option Nat)
    (c : String) : EnhancedAsanaError :=
  { message := some (ctxMsgS ctx m), status := st, code := some c, context := ctx }

/-- HTTP-response branch (utils/errors.ts:77-96): base message
`HTTP <status> <statusText || "Unknown Error">`, overridden by the first
response-data error message when one exists; code `HTTP_<status>`. -/
def httpResult (r : RespInfo) (ctx : Option String) : EnhancedAsanaError :=
  let statusText := jsOrStr r.statusText "Unknown Error"
  let base := "HTTP " ++ toString r.status ++ " " ++ statusText
  let msg :=
    match r.data_errors with
    | some (f :: _) => jsOrStr f.message base
    | _ => base
  { message := some (ctxMsgS ctx msg), status := some r.status,
    code := some ("HTTP_" ++ toString r.status), context := ctx }

/-- Generic fallback (utils/errors.ts:177-184):
`error?.message || String(error) || "Unknown error occurred"`; for the
object-shaped inputs modelled here `String(error)` is the truthy
"[object Object]", so the final alternative never fires. -/
def fallbackResult (e : AsanaErr) (ctx : Option String) : EnhancedAsanaError :=
  { message := some (ctxMsgS ctx (jsOrStr e.message "[object Object]")),
    status := none, code := none, context := ctx }

/-- Status-table stage (utils/errors.ts:128-175): `if (error && error.status)`
then a switch covering exactly 401, 403, 404, 429 and 500; any other truthy
status falls through the switch to the generic fallback. -/
def afterTransport (e : AsanaErr) (ctx : Option String) : EnhancedAsanaError :=
  match e.status with
  | some n =>
      if n = 0 then fallbackResult e ctx
      else
        match n with
        | 401 => fixedResult ctx
            "Authentication failed - check your Asana access token"
            (some 401) "UNAUTHORIZED"
        | 403 => fixedResult ctx
            "Permission denied - insufficient privileges for this operation"
            (some 403) "FORBIDDEN"
        | 404 => fixedResult ctx
            "Resource not found - the requested item may have been deleted or doesn\x27t exist"
            (some 404) "NOT_FOUND"
        | 429 => fixedResult ctx
            "Rate limit exceeded - please wait before making more requests"
            (some 429) "RATE_LIMITED"
        | 500 => fixedResult ctx
            "Asana server error - please try again later"
            (some 500) "SERVER_ERROR"
        | _ => fallbackResult e ctx
  | none => fallbackResult e ctx

/-- Transport-code stage (utils/errors.ts:98-125): ENOTFOUND, then
ECONNREFUSED, then ETIMEDOUT-or-message-containing-"timeout". -/
def afterResponse (e : AsanaErr) (ctx : Option String) : EnhancedAsanaError :=
  if e.code == some "ENOTFOUND" then
    fixedResult ctx "Network connection failed - unable to reach Asana API"
      none "NETWORK_ERROR"
  else if e.code == some "ECONNREFUSED" then
    fixedResult ctx "Connection refused by Asana API" none "CONNECTION_REFUSED"
  else if e.code == some "ETIMEDOUT"
      || (match e.message with
          | some m => strIncludes m "timeout"
          | none => false) then
    fixedResult ctx "Request timeout - Asana API did not respond in time"
      none "TIMEOUT"
  else afterTransport e ctx

/-- HTTP-response stage (utils/errors.ts:77-96): taken when
`error.response && error.response.status` is truthy. -/
def afterVendor (e : AsanaErr) (ctx : Option String) : EnhancedAsanaError :=
  match e.response with
  | some r => if r.status ≠ 0 then httpResult r ctx else afterResponse e ctx
  | none => afterResponse e ctx

/-- enhanceAsanaError (utils/errors.ts:63-184).  The vendor nested-error
branch comes first in the source; with an empty `errors` array the branch is
still taken (an empty array is truthy) and `errors[0].message` throws a
TypeError, modelled as the error case.  Every other input returns a result. -/
def enhanceAsanaError (e : AsanaErr) (ctx : Option String) :
    Except String EnhancedAsanaError :=
  match e.value_errors with
  | some [] =>
      Except.error "TypeError: cannot read properties of undefined (reading message)"
  | some (f :: _) =>
      Except.ok
        { message := ctxMsgOpt ctx f.message,
          status := jsOrNat e.status e.statusCode,
          code := some (jsOrStr f.phrase "ASANA_API_ERROR"),
          context := ctx }
  | none => Except.ok (afterVendor e ctx)

/-- C3 counterexample: an error carrying both a transport failure code
(ENOTFOUND) and a vendor nested error array is classified as the vendor-API
kind (code ASANA_API_ERROR), not the network kind, because the source checks
the vendor array first — the claimed classification order is wrong. -/
theorem enhanceAsanaError_counterexample_vendor_first :
    enhanceAsanaError
      { value_errors := some [{ message := some "boom", phrase := none }],
        response := none, code := some "ENOTFOUND", message := none,
        status := none, statusCode := none } none =
      Except.ok { message := some "boom", status := none,
                  code := some "ASANA_API_ERROR", context := none } ∧
    (some "ASANA_API_ERROR" : Option String) ≠ some "NETWORK_ERROR" :=
  ⟨rfl, by decide⟩

/-- C3 amended: enhanceAsanaError classifies by first match in the source
order — (1) vendor nested error array (which, when empty, makes the function
throw a TypeError; every other object-shaped input yields a result), (2) HTTP
response with truthy status via `HTTP_<status>`, (3) transport codes
ENOTFOUND / ECONNREFUSED / ETIMEDOUT-or-"timeout"-message, (4) a fixed table
on `error.status` covering exactly 401, 403, 404, 429 and 500, (5) generic
fallback.  In particular an error with both a transport code and a vendor
error array gets the vendor-API kind. -/
theorem enhanceAsanaError_amended :
    (∀ (e : AsanaErr) (ctx : Option String) (f : VendorErr) (rest : List VendorErr),
      e.value_errors = some (f :: rest) →
      enhanceAsanaError e ctx = Except.ok
        { message := ctxMsgOpt ctx f.message,
          status := jsOrNat e.status e.statusCode,
          code := some (jsOrStr f.phrase "ASANA_API_ERROR"),
          context := ctx }) ∧
    (∀ (e : AsanaErr) (ctx : Option String), e.value_errors = some [] →
      ∃ err, enhanceAsanaError e ctx = Except.error err) ∧
    (∀ (e : AsanaErr) (ctx : Option String), e.value_errors ≠ some [] →
      ∃ v, enhanceAsanaError e ctx = Except.ok v) ∧
    (∀ (e : AsanaErr) (ctx : Option String) (r : RespInfo),
      e.value_errors = none → e.response = some r → r.status ≠ 0 →
      enhanceAsanaError e ctx = Except.ok (httpResult r ctx)) ∧
    (∀ (e : AsanaErr) (ctx : Option String),
      e.value_errors = none → e.response = none → e.code = some "ENOTFOUND" →
      enhanceAsanaError e ctx = Except.ok (fixedResult ctx
        "Network connection failed - unable to reach Asana API"
        none "NETWORK_ERROR")) ∧
    (∀ (e : AsanaErr) (ctx : Option String),
      e.value_errors = none → e.response = none → e.code = some "ECONNREFUSED" →
      enhanceAsanaError e ctx = Except.ok (fixedResult ctx
        "Connection refused by Asana API" none "CONNECTION_REFUSED")) ∧
    (∀ (e : AsanaErr) (ctx : Option String),
      e.value_errors = none → e.response = none → e.code = some "ETIMEDOUT" →
      enhanceAsanaError e ctx = Except.ok (fixedResult ctx
        "Request timeout - Asana API did not respond in time" none "TIMEOUT")) ∧
    (∀ (e : AsanaErr) (ctx : Option String) (m : String),
      e.value_errors = none → e.response = none → e.code = none →
      e.message = some m → strIncludes m "timeout" = true →
      enhanceAsanaError e ctx = Except.ok (fixedResult ctx
        "Request timeout - Asana API did not respond in time" none "TIMEOUT")) ∧
    (∀ (e : AsanaErr) (ctx : Option String),
      e.value_errors = none → e.response = none → e.code = none →
      e.message = none → e.status = some 401 →
      enhanceAsanaError e ctx = Except.ok (fixedResult ctx
        "Authentication failed - check your Asana access token"
        (some 401) "UNAUTHORIZED")) ∧
    (∀ (e : AsanaErr) (ctx : Option String),
      e.value_errors = none → e.response = none → e.code = none →
      e.message = none → e.status = some 429 →
      enhanceAsanaError e ctx = Except.ok (fixedResult ctx
        "Rate limit exceeded - please wait before making more requests"
        (some 429) "RATE_LIMITED")) ∧
    (∀ (e : AsanaErr) (ctx : Option String),
      e.value_errors = none → e.response = none → e.code = none →
      e.message = none → e.status = some 502 →
      enhanceAsanaError e ctx = Except.ok (fallbackResult e ctx)) ∧
    (∀ (e : AsanaErr) (ctx : Option String),
      e.value_errors = none → e.response = none → e.code = none →
      e.message = none → e.status = none →
      enhanceAsanaError e ctx = Except.ok (fallbackResult e ctx)) := by
  refine ⟨?_, ?_, ?_, ?_, ?_, ?_, ?_, ?_, ?_, ?_, ?_, ?_⟩
  · intro e ctx f rest h
    unfold enhanceAsanaError
    rw [h]
  · intro e ctx h
    unfold enhanceAsanaError
    rw [h]
    exact ⟨_, rfl⟩
  · intro e ctx h
    unfold enhanceAsanaError
    cases hv : e.value_errors with
    | none => exact ⟨_, rfl⟩
    | some l =>
        cases l with
        | nil => exact absurd hv h
        | cons f rest => exact ⟨_, rfl⟩
  · intro e ctx r hval hresp hst
    unfold enhanceAsanaError afterVendor
    rw [hval, hresp]
    show Except.ok (if r.status ≠ 0 then httpResult r ctx else afterResponse e ctx) =
      Except.ok (httpResult r ctx)
    rw [if_pos hst]
  · intro e ctx hval hresp hcode
    unfold enhanceAsanaError afterVendor afterResponse
    rw [hval, hresp, hcode]
    rfl
  · intro e ctx hval hresp hcode
    unfold enhanceAsanaError afterVendor afterResponse
    rw [hval, hresp, hcode]
    rfl
  · intro e ctx hval hresp hcode
    unfold enhanceAsanaError afterVendor afterResponse
    rw [hval, hresp, hcode]
    rfl
  · intro e ctx m hval hresp hcode hmsg htimeout
    unfold enhanceAsanaError afterVendor afterResponse
    rw [hval, hresp, hcode, hmsg]
    simp [htimeout]
  · intro e ctx hval hresp hcode hmsg hstatus
    unfold enhanceAsanaError afterVendor afterResponse afterTransport
    rw [hval, hresp, hcode, hmsg, hstatus]
    rfl
  · intro e ctx hval hresp hcode hmsg hstatus
    unfold enhanceAsanaError afterVendor afterResponse afterTransport
    rw [hval, hresp, hcode, hmsg, hstatus]
    rfl
  · intro e ctx hval hresp hcode hmsg hstatus
    unfold enhanceAsanaError afterVendor afterResponse afterTransport
    rw [hval, hresp, hcode, hmsg, hstatus]
    rfl
  · intro e ctx hval hresp hcode hmsg hstatus
    unfold enhanceAsanaError afterVendor afterResponse afterTransport
    rw [hval, hresp, hcode, hmsg, hstatus]
    rfl

/-- C3 amended, witness: a bare 429 error is classified RATE_LIMITED, and a
vendor-array error with an ENOTFOUND code still gets the vendor kind. -/
theorem enhanceAsanaError_amended_witness :
    enhanceAsanaError
      { value_errors := none, response := none, code := none, message := none,
        status := some 429, statusCode := none } none =
      Except.ok (fixedResult none
        "Rate limit exceeded - please wait before making more requests"
        (some 429) "RATE_LIMITED") ∧
    enhanceAsanaError
      { value_errors := some [{ message := some "boom", phrase := none }],
        response := none, code := some "ENOTFOUND", message := none,
        status := none, statusCode := none } none =
      Except.ok
        { message := some "boom", status := none,
          code := some "ASANA_API_ERROR", context := none } :=
  ⟨enhanceAsanaError_amended.2.2.2.2.2.2.2.2.2.1
      { value_errors := none, response := none, code := none, message := none,
        status := some 429, statusCode := none } none rfl rfl rfl rfl rfl,
   enhanceAsanaError_amended.1
      { value_errors := some [{ message := some "boom", phrase := none }],
        response := none, code := some "ENOTFOUND", message := none,
        status := none, statusCode := none } none
      { message := some "boom", phrase := none } [] rfl⟩

/-! ### tool-schemas.ts : SetParentForTaskSchema, and the handler case that
skips it -/

/-- One dot-free identifier of the OptFieldsSchema regex:
`[a-zA-Z_][a-zA-Z0-9_]*`. -/
def identCheck (cs : List Char) : Bool :=
  match cs with
  | [] => false
  | c :: rest => (c.isAlpha || c = '_') && rest.all (fun d => d.isAlphanum || d = '_')

/-- A dotted field name of OptFieldsSchema: `ident(.ident)*`. -/
def dottedIdentCheck (cs : List Char) : Bool :=
  (splitOnChar '.' cs).all identCheck

/-- OptFieldsSchema (schemas/base.ts:66-69): comma-separated dotted field
names. -/
def optFieldsCheck (s : String) : Bool :=
  (splitOnChar ',' s.toList).all dottedIdentCheck

/-- Issues of one GID-typed field of a zod object: absent raises Required
when the field is required, a non-string raises a type issue, a string is
checked against GidSchema.  `path` prefixes the issue message the way
validateToolInput renders it. -/
def gidFieldIssues (path : String) (required : Bool) (v : Option J) : List String :=
  match v with
  | none => if required then [path ++ ": Required"] else []
  | some J.undef => if required then [path ++ ": Required"] else []
  | some (J.str s) =>
      if gidCheck s then []
      else [path ++ ": Must be a valid Asana GID (numeric string)"]
  | some _ => [path ++ ": Expected string"]

/-- Parse of the `data` sub-object of SetParentForTaskSchema
(tool-schemas.ts:115-122): `parent` is a required nullable GID,
`insert_after` and `insert_before` are optional GIDs; when the base object
parses, the `.refine` predicate
`!(data.insert_after && data.insert_before)` adds the single issue
"Cannot specify both insert_after and insert_before". -/
def setParentDataParse (v : J) : Except (List String) J :=
  match v with
  | J.obj ds =>
      let parentIssues :=
        match objGet ds "parent" with
        | none => ["data.parent: Required"]
        | some J.undef => ["data.parent: Required"]
        | some J.null => []
        | some (J.str s) =>
            if gidCheck s then []
            else ["data.parent: Must be a valid Asana GID (numeric string)"]
        | some _ => ["data.parent: Expected string"]
      let issues := parentIssues
        ++ gidFieldIssues "data.insert_after" false (objGet ds "insert_after")
        ++ gidFieldIssues "data.insert_before" false (objGet ds "insert_before")
      if issues.isEmpty then
        if jsTruthy ((objGet ds "insert_after").getD J.undef)
            && jsTruthy ((objGet ds "insert_before").getD J.undef) then
          Except.error ["Cannot specify both insert_after and insert_before"]
        else Except.ok (J.obj ds)
      else Except.error issues
  | _ => Except.error ["data: Expected object"]

/-- SetParentForTaskSchema.safeParse (tool-schemas.ts:113-126): required GID
`task_id`, the refined `data` object, optional `opts` with an optional
opt_fields string. -/
def setParentForTaskSafeParse (v : J) : Except (List String) J :=
  match v with
  | J.obj fs =>
      let taskIssues := gidFieldIssues "task_id" true (objGet fs "task_id")
      let dataIssues :=
        match objGet fs "data" with
        | none => ["data: Required"]
        | some J.undef => ["data: Required"]
        | some d =>
            match setParentDataParse d with
            | Except.ok _ => []
            | Except.error is => is
      let optsIssues :=
        match objGet fs "opts" with
        | none => []
        | some J.undef => []
        | some (J.obj os) =>
            match objGet os "opt_fields" with
            | none => []
            | some J.undef => []
            | some (J.str s) =>
                if optFieldsCheck s then [] else ["opts.opt_fields: Invalid"]
            | some _ => ["opts.opt_fields: Expected string"]
        | some _ => ["opts: Expected object"]
      let issues := taskIssues ++ dataIssues ++ optsIssues
      if issues.isEmpty then Except.ok (J.obj fs) else Except.error issues
  | _ => Except.error ["root: Expected object"]

/-- The vendor call `asanaClient.setParentForTask(data, task_id, opts)`
issued by the handler, with the argument values it forwards. -/
structure SetParentCall where
  data : J
  task_id : J
  opts : J

/-- The `asana_set_parent_for_task` handler case
(handlers/tool-handler.ts:516-528): it destructures the raw arguments,
re-parses string-valued `data`/`opts` with JSON.parse (branch not modelled —
the inputs of interest carry objects), and then calls
`asanaClient.setParentForTask` unconditionally — no schema validation runs.
A returned `SetParentCall` means the network call is issued with exactly
these arguments. -/
def handleSetParentForTask (args : List (String × J)) : Except String SetParentCall :=
  let data := (objGet args "data").getD J.undef
  let task_id := (objGet args "task_id").getD J.undef
  let opts := (objGet args "opts").getD J.undef
  match data with
  | J.str _ => Except.error "JSON.parse branch not modelled"
  | _ =>
      match opts with
      | J.str _ => Except.error "JSON.parse branch not modelled"
      | _ => Except.ok { data := data, task_id := task_id, opts := opts }

/-- The C7 failing input: a re-parent call with both insert_after and
insert_before set (all values valid GIDs). -/
def setParentConflictArgs : List (String × J) :=
  [("task_id", J.str "1"),
   ("data", J.obj [("parent", J.str "2"), ("insert_after", J.str "3"),
                   ("insert_before", J.str "4")])]

/-- C7: the schema the repository declares for this tool rejects the
conflicting input with exactly the single mutual-exclusion error, but the
handler case never applies that schema — it issues the vendor network call
with the conflicting arguments anyway.  The code contradicts its own imported
schema (SetParentForTaskSchema is imported by tool-handler.ts yet unused). -/
theorem setParent_mutual_exclusion_code_bug :
    setParentForTaskSafeParse (J.obj setParentConflictArgs) =
      Except.error ["Cannot specify both insert_after and insert_before"] ∧
    handleSetParentForTask setParentConflictArgs =
      Except.ok
        { data := J.obj [("parent", J.str "2"), ("insert_after", J.str "3"),
                         ("insert_before", J.str "4")],
          task_id := J.str "1", opts := J.undef } :=
  ⟨rfl, rfl⟩

/-! ### tool-schemas.ts : SearchTasksSchema and validateSearchTasksParams -/

/-- zod `z.string()`. -/
def vString : J → Except String J
  | J.str s => Except.ok (J.str s)
  | _ => Except.error "Expected string"

/-- GidSchema as a field validator. -/
def vGid : J → Except String J
  | J.str s =>
      if gidCheck s then Except.ok (J.str s)
      else Except.error "Must be a valid Asana GID (numeric string)"
  | _ => Except.error "Expected string"

/-- `CommaListSchema.pipe(z.array(GidSchema))`: split/trim/drop-empties, then
every element must be a GID; the parsed value is the array. -/
def vGidList : J → Except String J
  | J.str s =>
      let parts := commaListTransform s
      if parts.all gidCheck then Except.ok (J.arr (parts.map J.str))
      else Except.error "Each GID must be a numeric string"
  | _ => Except.error "Expected string"

/-- ValidationUtils.userIdListOrMe: each element `"me"` or a GID. -/
def vUserList : J → Except String J
  | J.str s =>
      let parts := commaListTransform s
      if parts.all (fun x => x == "me" || gidCheck x) then
        Except.ok (J.arr (parts.map J.str))
      else Except.error "Must be \x22me\x22 or a valid Asana GID"
  | _ => Except.error "Expected string"

/-- DateSchema as a field validator. -/
def vDate : J → Except String J
  | J.str s =>
      if dateCheck s then Except.ok (J.str s)
      else Except.error "Must be ISO 8601 date format (YYYY-MM-DD)"
  | _ => Except.error "Expected string"

/-- DateTimeSchema as a field validator. -/
def vDateTime : J → Except String J
  | J.str s =>
      if dateTimeCheck s then Except.ok (J.str s)
      else Except.error "Must be ISO 8601 datetime format"
  | _ => Except.error "Expected string"

/-- `z.enum(options)`. -/
def vEnum (options : List String) : J → Except String J
  | J.str s =>
      if options.contains s then Except.ok (J.str s)
      else Except.error "Invalid enum value"
  | _ => Except.error "Expected string"

/-- The custom-field operation names (schemas/base.ts:108-116). -/
def customFieldOps : List String :=
  ["is_set", "value", "contains", "starts_with", "ends_with",
   "less_than", "greater_than"]

/-- CustomFieldsSchema (schemas/base.ts:122-128): a record from GID keys to
records from operation names to string/number/boolean values; the parsed
value is the object itself. -/
def vCustomFields : J → Except String J
  | J.obj m =>
      if m.all (fun p =>
          gidCheck p.1 &&
          (match p.2 with
           | J.obj ops =>
               ops.all (fun q =>
                 customFieldOps.contains q.1 &&
                 (match q.2 with
                  | J.str _ => true
                  | J.num _ => true
                  | J.bool _ => true
                  | _ => false))
           | _ => false)) then
        Except.ok (J.obj m)
      else Except.error "Invalid custom_fields"
  | _ => Except.error "Expected object"

/-- Decimal digits to a number. -/
def digitsToNat (cs : List Char) : Nat :=
  cs.foldl (fun a c => a * 10 + (c.toNat - 48)) 0

/-- `Number(s)` restricted to optional-sign decimal-integer strings, the only
strings that can reach LimitSchema with an integral value; every other string
(NaN or fractional) fails the downstream `.int()` check, modelled as `none`.
(`Number("")` is 0, which LimitSchema rejects just as `none` is.) -/
def jsNumberInt (s : String) : Option Int :=
  match s.toList with
  | '-' :: rest =>
      if !rest.isEmpty && rest.all Char.isDigit then
        some (-(digitsToNat rest : Int))
      else none
  | cs =>
      if !cs.isEmpty && cs.all Char.isDigit then some (digitsToNat cs : Int)
      else none

/-- `z.union([z.number(), z.string().transform(Number)]).pipe(LimitSchema)`
(tool-schemas.ts:651). -/
def vLimit : J → Except String J
  | J.num n =>
      match limitParse n with
      | Except.ok m => Except.ok (J.num m)
      | Except.error _ => Except.error "Limit must be between 1 and 100"
  | J.str s =>
      match jsNumberInt s with
      | some n =>
          match limitParse n with
          | Except.ok m => Except.ok (J.num m)
          | Except.error _ => Except.error "Limit must be between 1 and 100"
      | none => Except.error "Expected number"
  | _ => Except.error "Expected number"

/-- OptFieldsSchema as a field validator. -/
def vOptFields : J → Except String J
  | J.str s =>
      if optFieldsCheck s then Except.ok (J.str s)
      else Except.error "Must be comma-separated field names"
  | _ => Except.error "Expected string"

/-- BooleanOrStringSchema as a field validator. -/
def vBoolOrStr : J → Except String J := booleanOrStringParse

/-- The shape of SearchTasksSchema (tool-schemas.ts:572-656): every
recognized key with whether it is required and its validator, in schema
declaration order. `workspace` is the only required key. -/
def searchTasksKeySpecs : List (String × Bool × (J → Except String J)) :=
  [("workspace", true, vGid),
   ("text", false, vString),
   ("projects.any", false, vGidList),
   ("projects.all", false, vGidList),
   ("projects.not", false, vGidList),
   ("sections.any", false, vGidList),
   ("sections.all", false, vGidList),
   ("sections.not", false, vGidList),
   ("assignee.any", false, vUserList),
   ("assignee.not", false, vGidList),
   ("created_by.any", false, vGidList),
   ("created_by.not", false, vGidList),
   ("assigned_by.any", false, vGidList),
   ("assigned_by.not", false, vGidList),
   ("followers.any", false, vGidList),
   ("followers.not", false, vGidList),
   ("liked_by.any", false, vGidList),
   ("liked_by.not", false, vGidList),
   ("commented_on_by.any", false, vGidList),
   ("commented_on_by.not", false, vGidList),
   ("due_on", false, vDate),
   ("due_on.after", false, vDate),
   ("due_on.before", false, vDate),
   ("due_at.after", false, vDateTime),
   ("due_at.before", false, vDateTime),
   ("start_on", false, vDate),
   ("start_on.after", false, vDate),
   ("start_on.before", false, vDate),
   ("created_at.after", false, vDateTime),
   ("created_at.before", false, vDateTime),
   ("created_on", false, vDate),
   ("created_on.after", false, vDate),
   ("created_on.before", false, vDate),
   ("modified_at.after", false, vDateTime),
   ("modified_at.before", false, vDateTime),
   ("modified_on", false, vDate),
   ("modified_on.after", false, vDate),
   ("modified_on.before", false, vDate),
   ("completed_at.after", false, vDateTime),
   ("completed_at.before", false, vDateTime),
   ("completed_on", false, vDate),
   ("completed_on.after", false, vDate),
   ("completed_on.before", false, vDate),
   ("completed", false, vBoolOrStr),
   ("is_subtask", false, vBoolOrStr),
   ("has_attachment", false, vBoolOrStr),
   ("is_blocked", false, vBoolOrStr),
   ("is_blocking", false, vBoolOrStr),
   ("tags.any", false, vGidList),
   ("tags.all", false, vGidList),
   ("tags.not", false, vGidList),
   ("teams.any", false, vGidList),
   ("portfolios.any", false, vGidList),
   ("resource_subtype", false,
     vEnum ["default_task", "milestone", "section", "approval"]),
   ("custom_fields", false, vCustomFields),
   ("sort_by", false,
     vEnum ["due_date", "created_at", "completed_at", "likes", "modified_at"]),
   ("sort_ascending", false, vBoolOrStr),
   ("limit", false, vLimit),
   ("offset", false, vString),
   ("opt_fields", false, vOptFields)]

/-- The value is the JavaScript undefined. -/
def jIsUndef : J → Bool
  | J.undef => true
  | _ => false

/-- Processing of one schema key given the value found at that key (absent
modelled as undefined, which zod treats as missing: an error for a required
key, skipped for an optional one; any other value runs the validator). -/
def runKeyVal (sp : String × Bool × (J → Except String J)) (v : J) :
    Except String (Option (String × J)) :=
  if jIsUndef v then
    if sp.2.1 then Except.error (sp.1 ++ ": Required") else Except.ok none
  else
    match sp.2.2 v with
    | Except.ok w => Except.ok (some (sp.1, w))
    | Except.error m => Except.error (sp.1 ++ ": " ++ m)

/-- Processing of one schema key over the raw argument object. -/
def runKeySpec (fs : List (String × J))
    (sp : String × Bool × (J → Except String J)) :
    Except String (Option (String × J)) :=
  runKeyVal sp ((objGet fs sp.1).getD J.undef)

/-- SearchTasksSchema.safeParse as used by validateSearchTasksParams
(tool-schemas.ts:695-718): a plain `z.object` in zod default "strip" mode —
every schema key is processed (issues collected across keys, no fail-fast),
the parsed output contains the processed schema keys only, and keys outside
the shape are removed.  The error case models the thrown Error. -/
def searchTasksSafeParse (v : J) : Except (List String) (List (String × J)) :=
  match v with
  | J.obj fs =>
      let results := searchTasksKeySpecs.map (runKeySpec fs)
      let errs := results.filterMap (fun r =>
        match r with
        | Except.error m => some m
        | Except.ok _ => none)
      if errs.isEmpty then
        Except.ok (results.filterMap (fun r =>
          match r with
          | Except.ok (some p) => some p
          | _ => none))
      else Except.error errs
  | _ => Except.error ["root: Expected object"]

/-- A successfully processed key binds exactly the schema key it came from. -/
theorem runKeyVal_key (sp : String × Bool × (J → Except String J)) (v : J)
    (q : String × J) (h : runKeyVal sp v = Except.ok (some q)) : q.1 = sp.1 := by
  unfold runKeyVal at h
  split at h
  · split at h <;> simp at h
  · split at h
    · simp only [Except.ok.injEq, Option.some.injEq] at h
      rw [← h]
    · simp at h

/-- C4 counterexample: an unrecognized key is NOT passed through — validation
of `{workspace: "12345", some_future_param: "x"}` succeeds, yet the validated
output binds only `workspace`; the unrecognized key is stripped. -/
theorem searchTasks_unrecognized_key_stripped :
    searchTasksSafeParse
      (J.obj [("workspace", J.str "12345"), ("some_future_param", J.str "x")]) =
      Except.ok [("workspace", J.str "12345")] ∧
    objGet [("workspace", J.str "12345")] "some_future_param" = none := by
  exact ⟨rfl, rfl⟩

/-- C4 amended: search-task validation is in zod strip mode — every key of
the validated output is one of the recognized schema keys, so unrecognized
raw keys never reach the validated output (they are removed, not passed
through). -/
theorem searchTasks_validation_output_keys_recognized
    (fs out : List (String × J))
    (h : searchTasksSafeParse (J.obj fs) = Except.ok out) :
    ∀ k ∈ out.map Prod.fst, k ∈ searchTasksKeySpecs.map (fun sp => sp.1) := by
  intro k hk
  simp only [searchTasksSafeParse] at h
  split at h
  · have hout := Except.ok.inj h
    rw [← hout] at hk
    rcases List.mem_map.mp hk with ⟨p, hp, hpe⟩
    rcases List.mem_filterMap.mp hp with ⟨r, hr, hpick⟩
    rcases List.mem_map.mp hr with ⟨sp, hsp, hre⟩
    have hkey : p.1 = sp.1 := by
      cases hres : r with
      | error m => rw [hres] at hpick; simp at hpick
      | ok o =>
          cases o with
          | none => rw [hres] at hpick; simp at hpick
          | some q =>
              rw [hres] at hpick
              simp only [Option.some.injEq] at hpick
              rw [← hpick]
              exact runKeyVal_key sp _ q (by rw [← runKeySpec, hre]; exact hres)
    rw [← hpe, hkey]
    exact List.mem_map.mpr ⟨sp, hsp, rfl⟩
  · simp at h

/-- C4 amended, witness: the theorem applied to the concrete stripped
input. -/
theorem searchTasks_validation_output_keys_recognized_witness :
    "workspace" ∈ searchTasksKeySpecs.map (fun sp => sp.1) :=
  searchTasks_validation_output_keys_recognized
    [("workspace", J.str "12345"), ("some_future_param", J.str "x")]
    [("workspace", J.str "12345")] rfl
    "workspace" (by simp)
